import Mathlib

set_option autoImplicit false

/-!
Shallow embedding of the AIfotoAPI ("Track My Home API") response-parsing and
multi-source enrichment pipeline, translated from the JavaScript sources:

  * `src/utils/tagMatcher.js`           — system tag vocabulary and merging
  * `src/index.js`                      — bounding-box normalizer
  * the main server file                — token-usage accounting, JSON
    post-decode item extraction (multi-item and single-item modes)
  * `vivinoService.js`                  — wine enrichment strategy
  * `discogsService.js`                 — vinyl enrichment strategy
  * `collectorService.js`               — routing, concurrent orchestration,
    statistics

JavaScript-specific semantics (truthiness of `undefined`/`null`/`0`/empty
string, the `a || b` operator, object spread) are modelled explicitly by
helper functions below.  External HTTP calls are modelled by explicit
environment values describing the provider's response, so every function is
total and executable.
-/

/-- JavaScript truthiness of an optional string: `undefined`, `null` and the
empty string are falsy. -/
def truthyS (o : Option String) : Bool :=
  match o with
  | none => false
  | some s => !s.isEmpty

/-- JavaScript truthiness of an optional integer: `undefined`, `null` and `0`
are falsy. -/
def truthyI (o : Option Int) : Bool :=
  match o with
  | none => false
  | some n => n != 0

/-- JavaScript truthiness of an optional natural number (token counts):
`undefined`, `null` and `0` are falsy. -/
def truthyN (o : Option Nat) : Bool :=
  match o with
  | none => false
  | some n => n != 0

/-- JavaScript truthiness of an optional rational (general JS number). -/
def truthyQ (o : Option ℚ) : Bool :=
  match o with
  | none => false
  | some q => q != 0

/-- JavaScript `a || b` where `a` is an optional string and `b` a string. -/
def jsOrS (a : Option String) (b : String) : String :=
  if truthyS a then a.getD b else b

/-- JavaScript `a || b` where both sides are optional strings (result may be
the falsy right-hand side, as in `result.thumb || result.cover_image`). -/
def jsOrSS (a b : Option String) : Option String :=
  if truthyS a then a else b

/-- JavaScript `a || null` on an optional integer (`data.year || null`). -/
def jsOrIN (a : Option Int) : Option Int :=
  if truthyI a then a else none

/-- JavaScript `a || null` on an optional rational. -/
def jsOrQN (a : Option ℚ) : Option ℚ :=
  if truthyQ a then a else none

/-- JavaScript `a || b` on an optional rational with numeric default. -/
def jsOrQ (a : Option ℚ) (b : ℚ) : ℚ :=
  if truthyQ a then a.getD b else b

/-- JavaScript `a || b` on an optional integer with numeric default. -/
def jsOrI (a : Option Int) (b : Int) : Int :=
  if truthyI a then a.getD b else b

/-- JavaScript `a || b` on an optional natural number with default
(token-count reconciliation uses number-falsiness: a present `0` falls
through to the default). -/
def jsOrN (a : Option Nat) (b : Nat) : Nat :=
  if truthyN a then a.getD b else b

/-- Source `String.prototype.toLowerCase` on the tag vocabulary (ASCII): lowercase
every character. -/
def jsToLower (s : String) : String :=
  String.mk (s.data.map Char.toLower)

/-- JavaScript template interpolation of a possibly-undefined string:
`template undefined = "undefined"` (as in the backtick template around
`winery`). -/
def jsTemplate (o : Option String) : String :=
  match o with
  | none => "undefined"
  | some s => s

/- ----------------------------------------------------------------------
src/utils/tagMatcher.js
---------------------------------------------------------------------- -/

/-- Source `SYSTEM_TAGS.wine` from `src/utils/tagMatcher.js`. -/
def SYSTEM_TAGS_wine : List String := ["wine", "wijn", "vin", "vino", "wein"]

/-- Source `SYSTEM_TAGS.vinyl` from `src/utils/tagMatcher.js`. -/
def SYSTEM_TAGS_vinyl : List String :=
  ["vinyl", "plaat", "lp", "record", "album", "schijf"]

/-- Source `getAllSystemTags()`: the two category lists flattened, wine first. -/
def getAllSystemTags : List String := SYSTEM_TAGS_wine ++ SYSTEM_TAGS_vinyl

/-- The case-insensitive deduplication loop of `mergeTagsWithSystem`:
walk the tag list, push a tag to the output when its lowercase form has not
been seen yet, recording lowercase forms in `seen` (models the JS
`Set`-and-`forEach` loop; output order is push order). -/
def dedupCI (seen : List String) : List String → List String
  | [] => []
  | t :: ts =>
    if jsToLower t ∈ seen then dedupCI seen ts
    else t :: dedupCI (jsToLower t :: seen) ts

/-- The lowercase forms recorded in `seen` after the deduplication loop has
consumed a tag list. -/
def seenAfter (seen : List String) : List String → List String
  | [] => seen
  | t :: ts =>
    if jsToLower t ∈ seen then seenAfter seen ts
    else seenAfter (jsToLower t :: seen) ts

/-- Source `mergeTagsWithSystem(userTags)`: concatenate system tags with user tags
and deduplicate case-insensitively, keeping the first-seen casing. -/
def mergeTagsWithSystem (userTags : List String) : List String :=
  dedupCI [] (getAllSystemTags ++ userTags)

/- ----------------------------------------------------------------------
src/index.js — normalizeBoundingBoxes
---------------------------------------------------------------------- -/

/-- A raw bounding box as received from the model: each of the four fields is
`some q` when `Number(field)` yields a finite number `q`, and `none` when the
field is missing or fails numeric coercion (NaN / non-finite). -/
structure RawBBox where
  x : Option ℚ
  y : Option ℚ
  width : Option ℚ
  height : Option ℚ

/-- A normalized integer bounding box. -/
structure IntBBox where
  x : Int
  y : Int
  width : Int
  height : Int
deriving DecidableEq

/-- An item as seen by the bounding-box normalizer: `fields` stands for all
fields other than `bbox` (the JS spread `{ ...item, bbox: ... }` copies them
unchanged); `bbox` is `none` when `item.bbox` is absent or not an object. -/
structure RawBoxItem (α : Type) where
  fields : α
  bbox : Option RawBBox

/-- The normalizer's output item: same `fields`, integer (or null) box. -/
structure NormBoxItem (α : Type) where
  fields : α
  bbox : Option IntBBox
deriving DecidableEq

/-- The per-item body of `normalizeBoundingBoxes` (src/index.js lines
188-202): coerce the four fields, return `bbox: null` unless all four are
finite, then clamp/floor into the image. -/
def normalizeBox (imageWidth imageHeight : Int) {α : Type}
    (item : RawBoxItem α) : NormBoxItem α :=
  match item.bbox with
  | none => ⟨item.fields, none⟩
  | some b =>
    match b.x, b.y, b.width, b.height with
    | some bx, some by', some bw, some bh =>
      let x := max 0 (min ⌊bx⌋ (imageWidth - 1))
      let y := max 0 (min ⌊by'⌋ (imageHeight - 1))
      let w0 := max 1 ⌊bw⌋
      let h0 := max 1 ⌊bh⌋
      let w := if x + w0 > imageWidth then max 1 (imageWidth - x) else w0
      let h := if y + h0 > imageHeight then max 1 (imageHeight - y) else h0
      ⟨item.fields, some ⟨x, y, w, h⟩⟩
    | _, _, _, _ => ⟨item.fields, none⟩

/-- Source `normalizeBoundingBoxes(items, imageWidth, imageHeight)` over a list of
items (the non-array early return is not representable for a Lean list). -/
def normalizeBoundingBoxes {α : Type} (items : List (RawBoxItem α))
    (imageWidth imageHeight : Int) : List (NormBoxItem α) :=
  items.map (normalizeBox imageWidth imageHeight)

/- ----------------------------------------------------------------------
Token/cost accounting (processImageWithOpenAI / processSingleItemWithOpenAI)
---------------------------------------------------------------------- -/

/-- The provider's raw usage object: any of the generation-specific counter
fields may be absent (`response.usage || {}` makes the whole object `{}`
when absent, i.e. all fields `none`). -/
structure RawUsage where
  prompt_tokens : Option Nat
  completion_tokens : Option Nat
  input_tokens : Option Nat
  output_tokens : Option Nat
  total_tokens : Option Nat

/-- The canonical `token_usage` record returned to the caller: legacy and
current field names both populated. -/
structure TokenUsage where
  prompt_tokens : Nat
  completion_tokens : Nat
  total_tokens : Nat
  input_tokens : Nat
  output_tokens : Nat
deriving DecidableEq

/-- Source `promptTokens = tokenUsage.input_tokens || tokenUsage.prompt_tokens || 0`. -/
def promptTokensOf (raw : RawUsage) : Nat :=
  jsOrN raw.input_tokens (jsOrN raw.prompt_tokens 0)

/-- Source `completionTokens = tokenUsage.output_tokens || tokenUsage.completion_tokens || 0`. -/
def completionTokensOf (raw : RawUsage) : Nat :=
  jsOrN raw.output_tokens (jsOrN raw.completion_tokens 0)

/-- Source `totalTokens = tokenUsage.total_tokens || (promptTokens + completionTokens)`. -/
def totalTokensOf (raw : RawUsage) : Nat :=
  jsOrN raw.total_tokens (promptTokensOf raw + completionTokensOf raw)

/-- The canonical usage record built on every successful parse path. -/
def buildTokenUsage (raw : RawUsage) : TokenUsage :=
  { prompt_tokens := promptTokensOf raw
    completion_tokens := completionTokensOf raw
    total_tokens := totalTokensOf raw
    input_tokens := promptTokensOf raw
    output_tokens := completionTokensOf raw }

/-- The response warnings list:
`totalTokens > 15000 ? ["High token usage: ..."] : []`. -/
def usageWarnings (raw : RawUsage) : List String :=
  if totalTokensOf raw > 15000 then
    ["High token usage: " ++ toString (totalTokensOf raw) ++
      " tokens. Consider using smaller images to reduce costs."]
  else []

/- ----------------------------------------------------------------------
Post-decode item extraction (JSON model)
---------------------------------------------------------------------- -/

/-- A minimal JSON value model for the decoded model output. -/
inductive Json where
  | null
  | bool (b : Bool)
  | num (q : ℚ)
  | str (s : String)
  | arr (elems : List Json)
  | obj (fields : List (String × Json))

/-- Property access `parsed.key`: `none` models JS `undefined`. -/
def Json.get? : Json → String → Option Json
  | Json.obj fields, k => fields.lookup k
  | _, _ => none

/-- JavaScript truthiness of a JSON value. -/
def Json.truthy : Json → Bool
  | Json.null => false
  | Json.bool b => b
  | Json.num q => q != 0
  | Json.str s => !s.isEmpty
  | Json.arr _ => true
  | Json.obj _ => true

/-- Multi-item mode, after a successful `JSON.parse`:
`Array.isArray(parsed?.items) ? parsed.items : []` — the raw items are
returned as-is (`const items = rawItems`), with no per-item validation. -/
def itemsOf (parsed : Json) : List Json :=
  match parsed.get? "items" with
  | some (Json.arr l) => l
  | _ => []

/-- Single-item mode, after a successful `JSON.parse`:
`if (!parsed.item) throw new Error('Response missing "item" field')`,
otherwise the item is returned as-is with no per-key validation. -/
def itemOfSingle (parsed : Json) : Except String Json :=
  match parsed.get? "item" with
  | some j =>
    if j.truthy then Except.ok j
    else Except.error "Response missing \"item\" field"
  | none => Except.error "Response missing \"item\" field"

/-- The required item keys named by the specification (top level plus the
collector-detail sub-fields), in the model's snake_case field names. -/
def requiredItemKeys : List String :=
  ["name", "description", "estimated_value", "quantity", "accuracy",
   "item_type", "tags", "collector_details"]

/-- The required collector-detail sub-fields named by the specification. -/
def requiredDetailKeys : List String :=
  ["winery", "vintage", "wine_name", "artist", "album", "release_year"]

/-- Whether an item object carries every required key (including the
collector-detail sub-fields) — the validation the specification describes. -/
def hasRequiredKeys (item : Json) : Bool :=
  (requiredItemKeys.all fun k => (item.get? k).isSome) &&
    (match item.get? "collector_details" with
     | some cd => requiredDetailKeys.all fun k => (cd.get? k).isSome
     | none => false)

/- ----------------------------------------------------------------------
Item data model (the OpenAI json_schema item shape)
---------------------------------------------------------------------- -/

/-- Source `collector_details` as produced by the model schema: all six keys always
present, each nullable. -/
structure CollectorDetails where
  winery : Option String
  vintage : Option Int
  wine_name : Option String
  artist : Option String
  album : Option String
  release_year : Option Int
deriving DecidableEq

/-- The legacy `vinyl_details` record that `enrichVinylItem` destructures
(`const { artist, album, release_year } = item.vinyl_details`). -/
structure VinylDetails where
  artist : Option String
  album : Option String
  release_year : Option Int
deriving DecidableEq

/-- A detected item as handed to the collector services.  `item_type` is
optional to model a missing/malformed field; `collector_details` is optional
because `enrichWineItem` guards on `!item.collector_details`;
`vinyl_details` is the legacy field read by `enrichVinylItem` (never emitted
by the current model schema). -/
structure Item where
  name : String
  description : String
  estimated_value : ℚ
  quantity : Int
  accuracy : ℚ
  item_type : Option String
  tags : List String
  collector_details : Option CollectorDetails
  vinyl_details : Option VinylDetails
deriving DecidableEq

/- ----------------------------------------------------------------------
vivinoService.js — searchWine and enrichWineItem
---------------------------------------------------------------------- -/

/-- The outcome of a `fetch` call: a decoded body, a non-2xx HTTP status, or
a thrown transport error (network failure or timeout — `fetch` rejection and
timeout both surface as a thrown error caught by the service). -/
inductive FetchResult (β : Type) where
  | ok (body : β)
  | httpError (status : Nat)
  | transportError (message : String)

/-- Source `wine.region` in a Vivino record. -/
structure VivinoRegion where
  name : Option String
  areaName : Option String
  countryName : Option String

/-- Source `wine.statistics` in a Vivino record. -/
structure VivinoStatistics where
  ratings_average : Option ℚ
  ratings_count : Option Int

/-- Source `wine.style` in a Vivino record. -/
structure VivinoStyle where
  varietal_name : Option String
  description : Option String

/-- The `vintage.wine` object of a Vivino search record. -/
structure VivinoWine where
  id : Int
  name : Option String
  statistics : Option VivinoStatistics
  winery_name : Option String
  style : Option VivinoStyle
  region : Option VivinoRegion
  type_id : Option Int
  image_location : Option String

/-- A `vintage` object of a Vivino search record. -/
structure VivinoVintage where
  wine : Option VivinoWine
  year : Option Int
  price_amount : Option ℚ
  price_currency_code : Option String

/-- One record of `data.explore_vintage.records`. -/
structure VivinoRecord where
  vintage : Option VivinoVintage

/-- The decoded Vivino search response body:
`data.explore_vintage?.records` may be absent. -/
structure VivinoBody where
  records : Option (List VivinoRecord)

/-- The environment of one `searchWine` call: what the single outbound fetch
returns. -/
structure VivinoEnv where
  resp : FetchResult VivinoBody

/-- The normalized wine record built by `searchWine` on success. -/
structure WineData where
  vivino_url : String
  vivino_rating : ℚ
  vivino_reviews_count : Int
  winery : String
  vintage : Option Int
  grape_variety : String
  region : String
  country : String
  food_pairing : List String
  wine_type : String
  image_url : Option String
  price_estimate : Option ℚ
  price_currency : String
deriving DecidableEq

/-- Source `formatRegion(region)`: join name, area name and country name with
", ", or "Unknown" when nothing is available. -/
def formatRegion (region : Option VivinoRegion) : String :=
  match region with
  | none => "Unknown"
  | some r =>
    let parts := (if truthyS r.name then [r.name.getD ""] else []) ++
      (if truthyS r.areaName then [r.areaName.getD ""] else []) ++
      (if truthyS r.countryName then [r.countryName.getD ""] else [])
    let joined := String.intercalate ", " parts
    if joined.isEmpty then "Unknown" else joined

/-- Source `extractFoodPairing(wine)`: educated guesses keyed on the wine type id. -/
def extractFoodPairing (wine : VivinoWine) : List String :=
  match wine.type_id with
  | some 1 => ["Red meat", "Game", "Mature cheese", "Pasta with red sauce"]
  | some 2 => ["Fish", "Seafood", "Poultry", "Soft cheese"]
  | some 3 => ["Appetizers", "Seafood", "Celebration dishes"]
  | some 4 => ["Salads", "Light pasta", "Grilled vegetables", "Mediterranean dishes"]
  | some 24 => ["Desserts", "Foie gras", "Blue cheese"]
  | _ => ["Red meat", "Cheese", "Pasta"]

/-- Source `getWineType(typeId)`: wine type name from type id. -/
def getWineType (typeId : Int) : String :=
  if typeId = 1 then "Red wine"
  else if typeId = 2 then "White wine"
  else if typeId = 3 then "Sparkling wine"
  else if typeId = 4 then "Rosé wine"
  else if typeId = 7 then "Dessert wine"
  else if typeId = 24 then "Fortified wine"
  else "Wine"

/-- Source `searchWine(query, vintage)`: every failure path (transport error or
timeout, non-OK HTTP status, empty result set, malformed record) returns
`none`; a usable first record is mapped to `WineData`.  The `query` argument
only feeds the request URL, so the outcome is fully determined by `env`. -/
def searchWine (env : VivinoEnv) (_query : String) (vintage : Option Int) :
    Option WineData :=
  match env.resp with
  | FetchResult.transportError _ => none
  | FetchResult.httpError _ => none
  | FetchResult.ok data =>
    match data.records with
    | none => none
    | some [] => none
    | some (topResult :: _) =>
      let vintageData := topResult.vintage
      match vintageData with
      | none => none
      | some vd =>
        match vd.wine with
        | none => none
        | some wine =>
          some
            { vivino_url := "https://www.vivino.com/wines/" ++ toString wine.id
              vivino_rating := jsOrQ (wine.statistics.bind (·.ratings_average)) 0
              vivino_reviews_count := jsOrI (wine.statistics.bind (·.ratings_count)) 0
              winery := jsOrS wine.winery_name "Unknown"
              vintage := jsOrIN vd.year |>.orElse fun _ => jsOrIN vintage
              grape_variety :=
                jsOrS (wine.style.bind (·.varietal_name))
                  (jsOrS (wine.style.bind (·.description)) "Unknown")
              region := formatRegion wine.region
              country := jsOrS (wine.region.bind (·.countryName)) "Unknown"
              food_pairing := extractFoodPairing wine
              wine_type :=
                match wine.type_id with
                | some tid => if tid ≠ 0 then getWineType tid else "Unknown"
                | none => "Unknown"
              image_url := jsOrSS wine.image_location none
              price_estimate := jsOrQN vd.price_amount
              price_currency := jsOrS vd.price_currency_code "EUR" }

/- ----------------------------------------------------------------------
discogsService.js — searchVinyl, getDetailedRelease, getReleasePricing
---------------------------------------------------------------------- -/

/-- One entry of `data.labels` in a Discogs release. -/
structure DiscogsLabel where
  name : Option String
  catno : Option String

/-- One entry of `data.formats` in a Discogs release. -/
structure DiscogsFormat where
  name : String
  qty : Option Int
  descriptions : Option (List String)

/-- One entry of `data.artists` in a Discogs release. -/
structure DiscogsArtist where
  name : String

/-- The `data.community` object of a Discogs release. -/
structure DiscogsCommunity where
  rating_average : Option ℚ
  rating_count : Option Int
  have_count : Option Int
  want_count : Option Int

/-- The decoded body of a Discogs release-details response. -/
structure DiscogsRelease where
  uri : Option String
  id : Int
  artists : Option (List DiscogsArtist)
  title : Option String
  year : Option Int
  labels : Option (List DiscogsLabel)
  genres : Option (List String)
  styles : Option (List String)
  formats : Option (List DiscogsFormat)
  country : Option String
  tracklist : Option (List String)
  community : Option DiscogsCommunity
  images_first_uri : Option String

/-- One entry of `data.results` in a Discogs search response. -/
structure DiscogsSearchHit where
  uri : Option String
  id : Int
  title : Option String
  year : Option Int
  label : Option (List String)
  catno : Option String
  genre : Option (List String)
  style : Option (List String)
  format : Option (List String)
  country : Option String
  thumb : Option String
  cover_image : Option String

/-- The decoded body of a Discogs search response (`data.results` may be
absent). -/
structure DiscogsSearchBody where
  results : Option (List DiscogsSearchHit)

/-- The decoded body of a Discogs marketplace-stats response. -/
structure DiscogsPricingBody where
  lowest_price_value : Option ℚ
  lowest_price_currency : Option String
  num_for_sale : Option Int

/-- The environment of one `searchVinyl` call: API credentials from the
process environment and the outcomes of the up-to-three outbound fetches. -/
structure DiscogsEnv where
  apiKey : Option String
  apiSecret : Option String
  searchResp : FetchResult DiscogsSearchBody
  detailResp : FetchResult DiscogsRelease
  pricingResp : FetchResult DiscogsPricingBody

/-- The pricing fields spread into the detailed vinyl record. -/
structure VinylPricing where
  discogs_avg_price : Option ℚ
  discogs_min_price : Option ℚ
  discogs_max_price : Option ℚ
  discogs_currency : String
  discogs_num_for_sale : Option Int
deriving DecidableEq

/-- The normalized vinyl record (detailed shape and search-fallback shape
share it; fields the fallback cannot fill stay `none`/defaults). -/
structure VinylData where
  discogs_url : Option String
  discogs_id : Int
  artist : String
  album : String
  release_year : Option Int
  label : String
  catalog_number : Option String
  genres : List String
  styles : List String
  format : String
  country : String
  tracklist : Int
  discogs_rating : Option ℚ
  discogs_votes : Int
  discogs_have : Int
  discogs_want : Int
  image_url : Option String
  pricing : VinylPricing
deriving DecidableEq

/-- Source `formatArtists(artists)`: join artist names with ", ", "Unknown" when
absent or empty. -/
def formatArtists (artists : Option (List DiscogsArtist)) : String :=
  match artists with
  | none => "Unknown"
  | some [] => "Unknown"
  | some l => String.intercalate ", " (l.map (·.name))

/-- Source `formatLabels(labels)`: join label names with ", ", "Unknown" when absent
or empty (a missing `name` renders as JS `undefined`). -/
def formatLabels (labels : Option (List DiscogsLabel)) : String :=
  match labels with
  | none => "Unknown"
  | some [] => "Unknown"
  | some l => String.intercalate ", " (l.map (fun lb => jsTemplate lb.name))

/-- Source `formatCatalogNumbers(labels)`: join the truthy catalog numbers with
", ", `null` when none. -/
def formatCatalogNumbers (labels : Option (List DiscogsLabel)) : Option String :=
  match labels with
  | none => none
  | some [] => none
  | some l =>
    let catNos := (l.map (·.catno)).filter truthyS
    if catNos.isEmpty then none
    else some (String.intercalate ", " (catNos.map (fun c => c.getD "")))

/-- Source `formatFormats(formats)`: "Vinyl" when absent or empty, else the first
format's name, an optional "Nx" quantity marker for qty > 1, and the
descriptions, joined with ", ". -/
def formatFormats (formats : Option (List DiscogsFormat)) : String :=
  match formats with
  | none => "Vinyl"
  | some [] => "Vinyl"
  | some (format :: _) =>
    let parts := [format.name] ++
      (match format.qty with
       | some q => if truthyI (some q) ∧ q > 1 then [toString q ++ "x"] else []
       | none => []) ++
      (match format.descriptions with
       | some ds => ds
       | none => [])
    String.intercalate ", " parts

/-- Source `getReleasePricing(releaseId, ...)`: non-OK status or transport error
degrade to the all-null EUR pricing record. -/
def getReleasePricing (env : DiscogsEnv) : VinylPricing :=
  match env.pricingResp with
  | FetchResult.httpError _ =>
    { discogs_avg_price := none, discogs_min_price := none
      discogs_max_price := none, discogs_currency := "EUR"
      discogs_num_for_sale := none }
  | FetchResult.transportError _ =>
    { discogs_avg_price := none, discogs_min_price := none
      discogs_max_price := none, discogs_currency := "EUR"
      discogs_num_for_sale := none }
  | FetchResult.ok data =>
    { discogs_avg_price := jsOrQN data.lowest_price_value
      discogs_min_price := jsOrQN data.lowest_price_value
      discogs_max_price := none
      discogs_currency := jsOrS data.lowest_price_currency "EUR"
      discogs_num_for_sale := some (jsOrI data.num_for_sale 0) }

/-- Source `getDetailedRelease(releaseId, ...)`: error paths return `null`, success
maps the release body (plus pricing) into the detailed vinyl record. -/
def getDetailedRelease (env : DiscogsEnv) : Option VinylData :=
  match env.detailResp with
  | FetchResult.httpError _ => none
  | FetchResult.transportError _ => none
  | FetchResult.ok data =>
    let pricing := getReleasePricing env
    some
      { discogs_url := data.uri.map (fun u => "https://www.discogs.com" ++ u)
        discogs_id := data.id
        artist := formatArtists data.artists
        album := jsTemplate data.title
        release_year := jsOrIN data.year
        label := formatLabels data.labels
        catalog_number := formatCatalogNumbers data.labels
        genres := data.genres.getD []
        styles := data.styles.getD []
        format := formatFormats data.formats
        country := jsOrS data.country "Unknown"
        tracklist := jsOrI ((data.tracklist.map (fun t => (t.length : Int)))) 0
        discogs_rating := jsOrQN (data.community.bind (·.rating_average))
        discogs_votes := jsOrI (data.community.bind (·.rating_count)) 0
        discogs_have := jsOrI (data.community.bind (·.have_count)) 0
        discogs_want := jsOrI (data.community.bind (·.want_count)) 0
        image_url := jsOrSS data.images_first_uri none
        pricing := pricing }

/-- Source `result.title?.split(' - ')?.[index]` used by the search fallback. -/
def splitTitlePart (title : Option String) (index : Nat) : Option String :=
  match title with
  | none => none
  | some t => (t.splitOn " - ").get? index

/-- Source `formatSearchResult(result)`: the coarser vinyl record built from a bare
search hit when the detail lookup fails. -/
def formatSearchResult (result : DiscogsSearchHit) : VinylData :=
  { discogs_url := result.uri.map (fun u => "https://www.discogs.com" ++ u)
    discogs_id := result.id
    artist := jsOrS (splitTitlePart result.title 0) "Unknown"
    album := jsOrS (splitTitlePart result.title 1) (jsOrS result.title "Unknown")
    release_year := jsOrIN result.year
    label := jsOrS (result.label.bind (·.get? 0)) "Unknown"
    catalog_number := jsOrSS result.catno none
    genres := result.genre.getD []
    styles := result.style.getD []
    format := jsOrS (result.format.bind (·.get? 0)) "Vinyl"
    country := jsOrS result.country "Unknown"
    tracklist := 0
    discogs_rating := none
    discogs_votes := 0
    discogs_have := 0
    discogs_want := 0
    image_url := jsOrSS result.thumb (jsOrSS result.cover_image none)
    pricing :=
      { discogs_avg_price := none, discogs_min_price := none
        discogs_max_price := none, discogs_currency := "EUR"
        discogs_num_for_sale := none } }

/-- Source `searchVinyl(artist, album, releaseYear)`: missing credentials, transport
error or timeout, non-OK status and an empty/absent result list all return
`null`; otherwise the first hit is detailed (falling back to the coarser
search shape when the detail lookup fails).  The query text built from the
arguments only feeds the request URL, so the outcome is determined by `env`. -/
def searchVinyl (env : DiscogsEnv) (_artist _album : Option String)
    (_releaseYear : Option Int) : Option VinylData :=
  if truthyS env.apiKey ∧ truthyS env.apiSecret then
    match env.searchResp with
    | FetchResult.transportError _ => none
    | FetchResult.httpError _ => none
    | FetchResult.ok data =>
      match data.results with
      | none => none
      | some [] => none
      | some (topResult :: _) =>
        match getDetailedRelease env with
        | none => some (formatSearchResult topResult)
        | some detailedData => some detailedData
  else none

/-- The enrichment outcome attached to an item: a wine or vinyl provider
record, or nothing. -/
inductive CollectorData where
  | wine (w : WineData)
  | vinyl (v : VinylData)
deriving DecidableEq

/-- An item plus its enrichment outcome: `base` holds the spread-copied
original fields (`{ ...item, ... }`), the three collector fields are the ones
the services add. -/
structure EnrichedItem where
  base : Item
  collector_category : Option String
  collector_data : Option CollectorData
  collector_warning : Option String
deriving DecidableEq

/-- Source `enrichWineItem(item)` (vivinoService.js lines 151-196): guard on
`!item.collector_details || !item.collector_details.wine_name`, then search
Vivino with `wine_name || winery` and the vintage; never throws. -/
def enrichWineItem (env : VivinoEnv) (item : Item) : EnrichedItem :=
  match item.collector_details with
  | none =>
    { base := item
      collector_category := some "wine"
      collector_data := none
      collector_warning := some "Insufficient wine details for enrichment" }
  | some cd =>
    if truthyS cd.wine_name then
      let searchQuery := jsOrS cd.wine_name (jsTemplate cd.winery)
      match searchWine env searchQuery cd.vintage with
      | none =>
        { base := item
          collector_category := some "wine"
          collector_data := none
          collector_warning := some "Wine not found on Vivino" }
      | some vivinoData =>
        { base := item
          collector_category := some "wine"
          collector_data := some (CollectorData.wine vivinoData)
          collector_warning := none }
    else
      { base := item
        collector_category := some "wine"
        collector_data := none
        collector_warning := some "Insufficient wine details for enrichment" }

/-- Source `enrichVinylItem(item)` (discogsService.js lines 500-544): guard on
`!item.vinyl_details` (note: NOT `collector_details`), then search Discogs
with the destructured artist/album/release_year; never throws. -/
def enrichVinylItem (env : DiscogsEnv) (item : Item) : EnrichedItem :=
  match item.vinyl_details with
  | none =>
    { base := item
      collector_category := some "vinyl"
      collector_data := none
      collector_warning := some "Insufficient vinyl details for enrichment" }
  | some vd =>
    match searchVinyl env vd.artist vd.album vd.release_year with
    | none =>
      { base := item
        collector_category := some "vinyl"
        collector_data := none
        collector_warning := some "Vinyl not found on Discogs" }
    | some discogsData =>
      { base := item
        collector_category := some "vinyl"
        collector_data := some (CollectorData.vinyl discogsData)
        collector_warning := none }

/- ----------------------------------------------------------------------
collectorService.js — routing, orchestration, statistics
---------------------------------------------------------------------- -/

/-- The provider environment available to one item's enrichment: the Vivino
fetch outcome and the Discogs credential/fetch outcomes. -/
structure CollectorEnv where
  vivino : VivinoEnv
  discogs : DiscogsEnv

/-- Source `processCollectorItem(item)`: route on `item.item_type`; `'wine'` and
`'vinyl'` dispatch to the strategies, everything else (including a missing
field) takes the `'general'`/default branch `{ ...item,
collector_category: null }`.  The surrounding `catch` is unreachable for
record-shaped items because both strategies handle all their failures
internally. -/
def processCollectorItem (env : CollectorEnv) (item : Item) : EnrichedItem :=
  let itemType := item.item_type
  if itemType = some "wine" then enrichWineItem env.vivino item
  else if itemType = some "vinyl" then enrichVinylItem env.discogs item
  else
    { base := item
      collector_category := none
      collector_data := none
      collector_warning := none }

instance : Inhabited EnrichedItem :=
  ⟨{ base :=
      { name := "", description := "", estimated_value := 0, quantity := 0
        accuracy := 0, item_type := none, tags := [], collector_details := none
        vinyl_details := none }
     collector_category := none
     collector_data := none
     collector_warning := none }⟩

/-- The fan-in of `Promise.all`: each concurrent task's settled value is
written into the result slot of its own index; `completion` is the order in
which the tasks finish.  The returned array is read out index-aligned, so it
does not depend on `completion` (proved below). -/
def promiseAllJoin (values : List EnrichedItem) (completion : List Nat) :
    List EnrichedItem :=
  let f := completion.foldl
    (fun g i => Function.update g i (values.getD i default))
    (fun _ => default)
  (List.range values.length).map f

/-- Source `processCollectorItems(items)`: an empty input is returned as-is,
otherwise every item is enriched concurrently (`Promise.all` over
`items.map(processCollectorItem)`); `env i` is the provider environment seen
by the `i`-th item's lookups and `completion` the order in which the per-item
promises settle. -/
def processCollectorItems (env : Nat → CollectorEnv) (completion : List Nat)
    (items : List Item) : List EnrichedItem :=
  if items.isEmpty then []
  else
    promiseAllJoin
      (items.enum.map (fun p => processCollectorItem (env p.1) p.2))
      completion

/-- The `collector_stats` record; `enrichment_failures` is `none` exactly
when the field is absent from the returned object (empty/non-array input). -/
structure CollectorStats where
  total_items : Nat
  collector_items : Nat
  wine_items : Nat
  vinyl_items : Nat
  general_items : Nat
  enrichment_failures : Option Nat
deriving DecidableEq

/-- Source `getCollectorStats(items)` (collectorService.js lines 282-319): the
empty/non-array early return omits `enrichment_failures`; otherwise one pass
counts categories and warning-carrying items. -/
def getCollectorStats (items : List EnrichedItem) : CollectorStats :=
  if items.isEmpty then
    { total_items := 0, collector_items := 0, wine_items := 0
      vinyl_items := 0, general_items := 0, enrichment_failures := none }
  else
    { total_items := items.length
      collector_items :=
        items.countP fun it =>
          it.collector_category == some "wine" ||
            it.collector_category == some "vinyl"
      wine_items := items.countP fun it => it.collector_category == some "wine"
      vinyl_items := items.countP fun it => it.collector_category == some "vinyl"
      general_items :=
        items.countP fun it =>
          !(it.collector_category == some "wine" ||
            it.collector_category == some "vinyl")
      enrichment_failures :=
        some (items.countP fun it => truthyS it.collector_warning) }

/- ----------------------------------------------------------------------
Concrete fixtures used by counterexamples and witnesses
---------------------------------------------------------------------- -/

instance : Inhabited Item :=
  ⟨{ name := "", description := "", estimated_value := 0, quantity := 0
     accuracy := 0, item_type := none, tags := [], collector_details := none
     vinyl_details := none }⟩

/-- A wine item whose collector details carry a winery but no wine name. -/
def wineryOnlyItem : Item :=
  { name := "Red wine bottle", description := "A bottle of red wine"
    estimated_value := 45, quantity := 1, accuracy := 9/10
    item_type := some "wine", tags := ["wine"]
    collector_details :=
      some { winery := some "Château Margaux", vintage := some 2015
             wine_name := none, artist := none, album := none
             release_year := none }
    vinyl_details := none }

/-- A wine item with a full wine name and vintage. -/
def wineNameItem : Item :=
  { name := "Château Margaux 2015", description := "A bottle of red wine"
    estimated_value := 450, quantity := 1, accuracy := 95/100
    item_type := some "wine", tags := ["wine"]
    collector_details :=
      some { winery := some "Château Margaux", vintage := some 2015
             wine_name := some "Château Margaux Grand Vin", artist := none
             album := none, release_year := none }
    vinyl_details := none }

/-- The spec's vinyl scenario item: artist and album present in
`collector_details` (as the model schema emits), no legacy `vinyl_details`
field. -/
def pinkFloydItem : Item :=
  { name := "The Dark Side of the Moon", description := "Vinyl LP"
    estimated_value := 30, quantity := 1, accuracy := 95/100
    item_type := some "vinyl", tags := ["vinyl"]
    collector_details :=
      some { winery := none, vintage := none, wine_name := none
             artist := some "Pink Floyd"
             album := some "The Dark Side of the Moon"
             release_year := some 1973 }
    vinyl_details := none }

/-- A vinyl item that does carry the legacy `vinyl_details` record. -/
def vinylLegacyItem : Item :=
  { name := "The Dark Side of the Moon", description := "Vinyl LP"
    estimated_value := 30, quantity := 1, accuracy := 95/100
    item_type := some "vinyl", tags := ["vinyl"]
    collector_details := none
    vinyl_details :=
      some { artist := some "Pink Floyd"
             album := some "The Dark Side of the Moon"
             release_year := some 1973 } }

/-- An everyday item routed to the `'general'` branch. -/
def generalItem : Item :=
  { name := "Coffee mug", description := "A ceramic mug"
    estimated_value := 5, quantity := 2, accuracy := 8/10
    item_type := some "general", tags := []
    collector_details := none, vinyl_details := none }

/-- A Vivino environment whose single fetch fails with HTTP 500. -/
def envVivinoFail : VivinoEnv := ⟨FetchResult.httpError 500⟩

/-- A Vivino environment returning one well-formed search record. -/
def envVivinoOk : VivinoEnv :=
  ⟨FetchResult.ok
    { records :=
        some [{ vintage :=
                  some { wine :=
                           some { id := 123, name := some "Margaux"
                                  statistics :=
                                    some { ratings_average := some (44/10)
                                           ratings_count := some 1200 }
                                  winery_name := some "Château Margaux"
                                  style := none, region := none
                                  type_id := some 1, image_location := none }
                         year := some 2015, price_amount := some 350
                         price_currency_code := some "EUR" } }] }⟩

/-- A Discogs environment whose search fetch times out (rejected promise). -/
def envDiscogsFail : DiscogsEnv :=
  { apiKey := some "key", apiSecret := some "secret"
    searchResp := FetchResult.transportError "network timeout at 5000ms"
    detailResp := FetchResult.transportError "network timeout at 5000ms"
    pricingResp := FetchResult.transportError "network timeout at 5000ms" }

/-- A Discogs environment returning one search hit whose detail lookup
fails (exercising the search-shape fallback). -/
def envDiscogsOk : DiscogsEnv :=
  { apiKey := some "key", apiSecret := some "secret"
    searchResp :=
      FetchResult.ok
        { results :=
            some [{ uri := some "/release/1", id := 1
                    title := some "Pink Floyd - The Dark Side of the Moon"
                    year := some 1973, label := some ["Harvest"]
                    catno := some "SHVL 804", genre := some ["Rock"]
                    style := some ["Prog Rock"], format := some ["Vinyl"]
                    country := some "UK", thumb := none
                    cover_image := none }] }
    detailResp := FetchResult.httpError 429
    pricingResp := FetchResult.httpError 404 }

/-- A combined collector environment built from the failing providers. -/
def envCollectorFail : CollectorEnv := ⟨envVivinoFail, envDiscogsFail⟩

/- Generic facts about the deduplication loop. -/

theorem dedupCI_sublist (seen : List String) (l : List String) :
    (dedupCI seen l).Sublist l := by
  induction l generalizing seen with
  | nil => simp [dedupCI]
  | cons t ts ih =>
    by_cases h : jsToLower t ∈ seen
    · simpa [dedupCI, h] using List.Sublist.cons t (ih seen)
    · simpa [dedupCI, h] using List.Sublist.cons₂ t (ih (jsToLower t :: seen))

theorem dedupCI_append (seen : List String) (l₁ l₂ : List String) :
    dedupCI seen (l₁ ++ l₂) =
      dedupCI seen l₁ ++ dedupCI (seenAfter seen l₁) l₂ := by
  induction l₁ generalizing seen with
  | nil => simp [dedupCI, seenAfter]
  | cons t ts ih =>
    by_cases h : jsToLower t ∈ seen
    · simp [dedupCI, seenAfter, h, ih]
    · simp [dedupCI, seenAfter, h, ih]

theorem dedupCI_not_seen (seen : List String) (l : List String) :
    ∀ x ∈ dedupCI seen l, jsToLower x ∉ seen := by
  induction l generalizing seen with
  | nil => simp [dedupCI]
  | cons t ts ih =>
    by_cases h : jsToLower t ∈ seen
    · simpa [dedupCI, h] using ih seen
    · intro x hx
      simp only [dedupCI, h, if_false, List.mem_cons] at hx
      rcases hx with rfl | hx
      · exact h
      · have := ih (jsToLower t :: seen) x hx
        intro hc
        exact this (List.mem_cons_of_mem _ hc)

theorem dedupCI_lower_nodup (seen : List String) (l : List String) :
    ((dedupCI seen l).map jsToLower).Nodup := by
  induction l generalizing seen with
  | nil => simp [dedupCI]
  | cons t ts ih =>
    by_cases h : jsToLower t ∈ seen
    · simpa [dedupCI, h] using ih seen
    · simp only [dedupCI, h, if_false, List.map_cons, List.nodup_cons]
      refine ⟨?_, ih (jsToLower t :: seen)⟩
      intro hc
      rcases List.mem_map.mp hc with ⟨x, hx, hxl⟩
      exact dedupCI_not_seen _ _ x hx (by simp [hxl])

/-- First-seen casing: for any lowercase key not already seen, the first tag
of that key surviving deduplication is the first tag of that key in the
input. -/
theorem dedupCI_find (seen : List String) (l : List String) (k : String)
    (hk : k ∉ seen) :
    (dedupCI seen l).find? (fun u => jsToLower u == k) =
      l.find? (fun u => jsToLower u == k) := by
  induction l generalizing seen with
  | nil => simp [dedupCI]
  | cons t ts ih =>
    by_cases h : jsToLower t ∈ seen
    · have hne : (jsToLower t == k) = false := by
        simp only [beq_eq_false_iff_ne]
        intro hc
        exact hk (hc ▸ h)
      simp [dedupCI, h, List.find?, hne, ih seen hk]
    · by_cases he : jsToLower t = k
      · have hbeq : (jsToLower t == k) = true := by simpa using he
        simp only [dedupCI, h, if_false, List.find?, hbeq]
      · have hne : (jsToLower t == k) = false := by
          simpa [beq_eq_false_iff_ne] using he
        have hk' : k ∉ jsToLower t :: seen := by
          simp only [List.mem_cons, not_or]
          exact ⟨fun hc => he hc.symm, hk⟩
        simp [dedupCI, h, List.find?, hne, ih _ hk']


/- ----------------------------------------------------------------------
Claim theorems
---------------------------------------------------------------------- -/

/-- C8: tag resolution puts the fixed system vocabulary first, preserves
first-seen original casing and relative order, deduplicates
case-insensitively, is idempotent on the empty input
(`resolve([]) = resolve(resolve([]))`), and `resolve(["Wine"])` contains
exactly one case-insensitive occurrence of "wine" even though "wine" is
already in the system vocabulary. -/
theorem mergeTagsWithSystem_resolution_spec :
    (∀ userTags : List String,
      mergeTagsWithSystem userTags =
        getAllSystemTags ++ dedupCI (seenAfter [] getAllSystemTags) userTags ∧
      (mergeTagsWithSystem userTags).Sublist (getAllSystemTags ++ userTags) ∧
      ((mergeTagsWithSystem userTags).map jsToLower).Nodup ∧
      (∀ k : String,
        (mergeTagsWithSystem userTags).find? (fun u => jsToLower u == k) =
          (getAllSystemTags ++ userTags).find? (fun u => jsToLower u == k))) ∧
    mergeTagsWithSystem [] = mergeTagsWithSystem (mergeTagsWithSystem []) ∧
    (mergeTagsWithSystem ["Wine"]).countP (fun t => jsToLower t == "wine") = 1 := by
  refine ⟨fun userTags => ⟨?_, ?_, ?_, ?_⟩, by decide, by decide⟩
  · have h := dedupCI_append [] getAllSystemTags userTags
    rw [mergeTagsWithSystem, h]
    have hsys : dedupCI [] getAllSystemTags = getAllSystemTags := by decide
    rw [hsys]
  · exact dedupCI_sublist _ _
  · exact dedupCI_lower_nodup _ _
  · exact fun k => dedupCI_find [] _ k (by simp)

/-- The clamp-and-shrink arithmetic shared by the two axes of
`normalizeBox`. -/
theorem clampAxisBounds (w : Int) (hw : 1 ≤ w) (a b : Int) :
    0 ≤ max 0 (min a (w - 1)) ∧
    max 0 (min a (w - 1)) ≤ w - 1 ∧
    1 ≤ (if max 0 (min a (w - 1)) + max 1 b > w
          then max 1 (w - max 0 (min a (w - 1))) else max 1 b) ∧
    max 0 (min a (w - 1)) +
      (if max 0 (min a (w - 1)) + max 1 b > w
        then max 1 (w - max 0 (min a (w - 1))) else max 1 b) ≤ w := by
  set x := max 0 (min a (w - 1)) with hx
  have hx0 : 0 ≤ x := le_max_left _ _
  have hxw : x ≤ w - 1 := by
    apply max_le
    · omega
    · exact min_le_right _ _
  refine ⟨hx0, hxw, ?_, ?_⟩
  · by_cases h : x + max 1 b > w
    · simp only [h, if_true]
      exact le_max_left _ _
    · simp only [h, if_false]
      exact le_max_left _ _
  · by_cases h : x + max 1 b > w
    · simp only [h, if_true]
      have h1 : (1 : Int) ≤ w - x := by omega
      rw [max_eq_right h1]
      omega
    · simp only [h, if_false]
      omega

/-- C9: for image dimensions at least 1, the bounding-box normalizer maps
each item independently; an item whose box has four finite numeric fields
receives an integer box kept fully inside the image
(`0 ≤ x ≤ width-1`, `0 ≤ y ≤ height-1`, `w ≥ 1`, `h ≥ 1`, `x+w ≤ width`,
`y+h ≤ height`); an item whose box is missing or has a field failing numeric
coercion gets a null box; all other fields are copied unchanged. -/
theorem normalizeBoundingBoxes_spec (α : Type) (items : List (RawBoxItem α))
    (imageWidth imageHeight : Int) (hW : 1 ≤ imageWidth) (hH : 1 ≤ imageHeight) :
    normalizeBoundingBoxes items imageWidth imageHeight =
      items.map (normalizeBox imageWidth imageHeight) ∧
    ∀ item : RawBoxItem α,
      (normalizeBox imageWidth imageHeight item).fields = item.fields ∧
      (∀ b bx by' bw bh, item.bbox = some b →
        b.x = some bx → b.y = some by' → b.width = some bw → b.height = some bh →
        ∃ nb : IntBBox,
          (normalizeBox imageWidth imageHeight item).bbox = some nb ∧
          0 ≤ nb.x ∧ nb.x ≤ imageWidth - 1 ∧
          0 ≤ nb.y ∧ nb.y ≤ imageHeight - 1 ∧
          1 ≤ nb.width ∧ 1 ≤ nb.height ∧
          nb.x + nb.width ≤ imageWidth ∧ nb.y + nb.height ≤ imageHeight) ∧
      ((item.bbox = none ∨
          ∃ b, item.bbox = some b ∧
            (b.x = none ∨ b.y = none ∨ b.width = none ∨ b.height = none)) →
        (normalizeBox imageWidth imageHeight item).bbox = none) := by
  refine ⟨rfl, fun item => ⟨?_, ?_, ?_⟩⟩
  · rcases item with ⟨fields, bbox⟩
    rcases bbox with _ | b
    · rfl
    · rcases b with ⟨bx, by', bw, bh⟩
      rcases bx with _ | bx <;> rcases by' with _ | by' <;>
        rcases bw with _ | bw <;> rcases bh with _ | bh <;> rfl
  · rintro b bx by' bw bh hb hbx hby hbw hbh
    rcases item with ⟨fields, bbox⟩
    simp only at hb
    subst hb
    rcases b with ⟨ox, oy, ow, oh⟩
    simp only at hbx hby hbw hbh
    subst hbx; subst hby; subst hbw; subst hbh
    have hxw := clampAxisBounds imageWidth hW ⌊bx⌋ ⌊bw⌋
    have hyh := clampAxisBounds imageHeight hH ⌊by'⌋ ⌊bh⌋
    exact ⟨_, rfl, hxw.1, hxw.2.1, hyh.1, hyh.2.1, hxw.2.2.1, hyh.2.2.1,
      hxw.2.2.2, hyh.2.2.2⟩
  · rintro (hnone | ⟨b, hb, hmiss⟩)
    · rcases item with ⟨fields, bbox⟩
      simp only at hnone
      subst hnone
      rfl
    · rcases item with ⟨fields, bbox⟩
      simp only at hb
      subst hb
      rcases b with ⟨ox, oy, ow, oh⟩
      rcases hmiss with h | h | h | h <;> simp only at h <;> subst h
      · rfl
      · rcases ox with _ | v <;> rfl
      · rcases ox with _ | v <;> rcases oy with _ | v' <;> rfl
      · rcases ox with _ | v <;> rcases oy with _ | v' <;>
          rcases ow with _ | v'' <;> rfl

/-- Witness for C9 at a concrete item list and 10×8 image: the oversized
fractional box `(x: 3.5, y: -2, width: 100, height: 0.25)` is clamped to an
integer box inside the image, and a box with a non-numeric width is nulled. -/
theorem normalizeBoundingBoxes_spec_witness :
    (1 : Int) ≤ 10 ∧ (1 : Int) ≤ 8 ∧
    (∃ nb : IntBBox,
      (normalizeBox 10 8
        (RawBoxItem.mk (0 : Nat)
          (some (RawBBox.mk (some (7/2)) (some (-2)) (some 100) (some (1/4)))))).bbox =
        some nb ∧
      0 ≤ nb.x ∧ nb.x ≤ 10 - 1 ∧ 0 ≤ nb.y ∧ nb.y ≤ 8 - 1 ∧
      1 ≤ nb.width ∧ 1 ≤ nb.height ∧ nb.x + nb.width ≤ 10 ∧
      nb.y + nb.height ≤ 8) ∧
    (normalizeBox 10 8
      (RawBoxItem.mk (0 : Nat)
        (some (RawBBox.mk (some 1) (some 1) none (some 2))))).bbox = none := by
  refine ⟨by decide, by decide, ?_, ?_⟩
  · exact (((normalizeBoundingBoxes_spec Nat [] 10 8 (by decide)
      (by decide)).2 _).2.1) _ (7/2) (-2) 100 (1/4) rfl rfl rfl rfl rfl
  · exact (((normalizeBoundingBoxes_spec Nat [] 10 8 (by decide)
      (by decide)).2 _).2.2)
      (Or.inr ⟨_, rfl, Or.inr (Or.inr (Or.inl rfl))⟩)

/-- C7: the canonical token-usage record populates legacy and current field
names identically; with only legacy names present the current-named fields
equal the legacy values; an absent (or zero, per JS falsiness) raw total is
derived as the sum of the two sub-counts — 0 with no warning when nothing is
present — and a total above 15000 appends exactly one warning string. -/
theorem buildTokenUsage_spec (raw : RawUsage) :
    (buildTokenUsage raw).input_tokens = (buildTokenUsage raw).prompt_tokens ∧
    (buildTokenUsage raw).output_tokens = (buildTokenUsage raw).completion_tokens ∧
    (∀ p c t : Option Nat, raw = ⟨p, c, none, none, t⟩ →
      (buildTokenUsage raw).input_tokens = p.getD 0 ∧
      (buildTokenUsage raw).output_tokens = c.getD 0) ∧
    (truthyN raw.total_tokens = false →
      (buildTokenUsage raw).total_tokens =
        (buildTokenUsage raw).prompt_tokens +
          (buildTokenUsage raw).completion_tokens) ∧
    (raw = ⟨none, none, none, none, none⟩ →
      (buildTokenUsage raw).total_tokens = 0 ∧ usageWarnings raw = []) ∧
    ((buildTokenUsage raw).total_tokens > 15000 →
      (usageWarnings raw).length = 1) := by
  refine ⟨rfl, rfl, ?_, ?_, ?_, ?_⟩
  · rintro p c t rfl
    constructor
    · rcases p with _ | p
      · rfl
      · rcases Nat.eq_zero_or_pos p with rfl | hp
        · rfl
        · simp [buildTokenUsage, promptTokensOf, jsOrN, truthyN, Option.getD,
            Nat.pos_iff_ne_zero.mp hp]
    · rcases c with _ | c
      · rfl
      · rcases Nat.eq_zero_or_pos c with rfl | hc
        · rfl
        · simp [buildTokenUsage, completionTokensOf, jsOrN, truthyN, Option.getD,
            Nat.pos_iff_ne_zero.mp hc]
  · intro h
    simp [buildTokenUsage, totalTokensOf, jsOrN, h]
  · rintro rfl
    exact ⟨rfl, rfl⟩
  · intro h
    have : totalTokensOf raw > 15000 := h
    simp [usageWarnings, this]

/-- Witness for C7: a legacy-only usage object with 3 prompt and 4
completion tokens canonicalizes to matching current-named fields and a
derived total of 7; a raw total of 20000 yields exactly one warning. -/
theorem buildTokenUsage_spec_witness :
    (buildTokenUsage ⟨some 3, some 4, none, none, none⟩).input_tokens = 3 ∧
    (buildTokenUsage ⟨some 3, some 4, none, none, none⟩).output_tokens = 4 ∧
    (buildTokenUsage ⟨some 3, some 4, none, none, none⟩).total_tokens =
      (buildTokenUsage ⟨some 3, some 4, none, none, none⟩).prompt_tokens +
        (buildTokenUsage ⟨some 3, some 4, none, none, none⟩).completion_tokens ∧
    (buildTokenUsage ⟨none, none, none, none, none⟩).total_tokens = 0 ∧
    usageWarnings ⟨none, none, none, none, none⟩ = [] ∧
    (usageWarnings ⟨none, none, none, none, some 20000⟩).length = 1 := by
  have h1 := (buildTokenUsage_spec ⟨some 3, some 4, none, none, none⟩).2.2.1
    (some 3) (some 4) none rfl
  have h2 := (buildTokenUsage_spec ⟨some 3, some 4, none, none, none⟩).2.2.2.1
    (by decide)
  have h3 := (buildTokenUsage_spec ⟨none, none, none, none, none⟩).2.2.2.2.1 rfl
  have h4 := (buildTokenUsage_spec ⟨none, none, none, none, some 20000⟩).2.2.2.2.2
    (by decide)
  exact ⟨h1.1, h1.2, h2, h3.1, h3.2, h4⟩

/-- C5 counterexample: after a successful decode, an item missing every
required key is NOT dropped in array mode (it is returned as the single
element), and in single-item mode an `item` object missing every required
key does NOT fail parsing. -/
theorem parse_validation_counterexample :
    itemsOf (Json.obj [("items", Json.arr [Json.obj []])]) = [Json.obj []] ∧
    hasRequiredKeys (Json.obj []) = false ∧
    (itemsOf (Json.obj [("items", Json.arr [Json.obj []])])).length = 1 ∧
    itemOfSingle (Json.obj [("item", Json.obj [])]) = Except.ok (Json.obj []) := by
  exact ⟨rfl, rfl, rfl, rfl⟩

/-- C5 amended: after a successful decode no per-item required-key
validation happens at all — array mode returns the decoded `items` array
exactly as-is (items missing required keys included), and single-item mode
fails only when the `item` key itself is absent or falsy, returning any
truthy `item` object unvalidated. -/
theorem parse_no_validation_spec :
    (∀ (parsed : Json) (l : List Json),
      parsed.get? "items" = some (Json.arr l) → itemsOf parsed = l) ∧
    (∀ parsed j : Json, parsed.get? "item" = some j → j.truthy = true →
      itemOfSingle parsed = Except.ok j) ∧
    (∀ parsed : Json, parsed.get? "item" = none →
      itemOfSingle parsed = Except.error "Response missing \"item\" field") := by
  refine ⟨?_, ?_, ?_⟩
  · intro parsed l h
    simp [itemsOf, h]
  · intro parsed j h ht
    simp [itemOfSingle, h, ht]
  · intro parsed h
    simp [itemOfSingle, h]

/-- Witness for C5 (amended): a decoded object whose `items` array holds one
empty item object is returned unchanged, and a truthy `item` object is
accepted without validation. -/
theorem parse_no_validation_spec_witness :
    itemsOf (Json.obj [("items", Json.arr [Json.obj []])]) = [Json.obj []] ∧
    itemOfSingle (Json.obj [("item", Json.obj [("name", Json.str "x")])]) =
      Except.ok (Json.obj [("name", Json.str "x")]) := by
  constructor
  · exact parse_no_validation_spec.1 (Json.obj [("items", Json.arr [Json.obj []])])
      [Json.obj []] rfl
  · exact parse_no_validation_spec.2.1 (Json.obj [("item", Json.obj [("name", Json.str "x")])])
      (Json.obj [("name", Json.str "x")]) rfl rfl

/-- C1: the enrichment strategies are total functions (they never raise) and,
for a wine or vinyl item whose details pass the strategy's guard, any
provider failure — transport error/timeout, HTTP error, or no match, i.e.
any environment making the search return `none` — yields the same item with
null collector data and a human-readable warning, while a successful search
yields non-null collector data and no warning; routing hands such items to
exactly these strategies. -/
theorem enrichment_failure_isolation_spec
    (witem vitem : Item) (cd : CollectorDetails) (vd : VinylDetails)
    (envV : VivinoEnv) (envD : DiscogsEnv) (envC : CollectorEnv) :
    (witem.item_type = some "wine" →
      processCollectorItem envC witem = enrichWineItem envC.vivino witem) ∧
    (vitem.item_type = some "vinyl" →
      processCollectorItem envC vitem = enrichVinylItem envC.discogs vitem) ∧
    (witem.collector_details = some cd → truthyS cd.wine_name = true →
      (searchWine envV (jsOrS cd.wine_name (jsTemplate cd.winery)) cd.vintage =
          none →
        enrichWineItem envV witem =
          { base := witem, collector_category := some "wine"
            collector_data := none
            collector_warning := some "Wine not found on Vivino" }) ∧
      (∀ w : WineData,
        searchWine envV (jsOrS cd.wine_name (jsTemplate cd.winery)) cd.vintage =
            some w →
        enrichWineItem envV witem =
          { base := witem, collector_category := some "wine"
            collector_data := some (CollectorData.wine w)
            collector_warning := none })) ∧
    (vitem.vinyl_details = some vd →
      (searchVinyl envD vd.artist vd.album vd.release_year = none →
        enrichVinylItem envD vitem =
          { base := vitem, collector_category := some "vinyl"
            collector_data := none
            collector_warning := some "Vinyl not found on Discogs" }) ∧
      (∀ v : VinylData,
        searchVinyl envD vd.artist vd.album vd.release_year = some v →
        enrichVinylItem envD vitem =
          { base := vitem, collector_category := some "vinyl"
            collector_data := some (CollectorData.vinyl v)
            collector_warning := none })) := by
  refine ⟨?_, ?_, ?_, ?_⟩
  · intro hty
    simp [processCollectorItem, hty]
  · intro hty
    simp [processCollectorItem, hty]
  · intro hcd hwn
    constructor
    · intro hs
      simp [enrichWineItem, hcd, hwn, hs]
    · intro w hs
      simp [enrichWineItem, hcd, hwn, hs]
  · intro hvd
    constructor
    · intro hs
      simp [enrichVinylItem, hvd, hs]
    · intro v hs
      simp [enrichVinylItem, hvd, hs]

/-- Witness for C1: a failing Vivino fetch leaves the wine-name item
unmodified with a warning, a successful Vivino fetch attaches data with no
warning, and a timed-out Discogs fetch leaves the legacy vinyl item
unmodified with a warning. -/
theorem enrichment_failure_isolation_spec_witness :
    enrichWineItem envVivinoFail wineNameItem =
      { base := wineNameItem, collector_category := some "wine"
        collector_data := none
        collector_warning := some "Wine not found on Vivino" } ∧
    (∃ w : WineData, enrichWineItem envVivinoOk wineNameItem =
      { base := wineNameItem, collector_category := some "wine"
        collector_data := some (CollectorData.wine w)
        collector_warning := none }) ∧
    enrichVinylItem envDiscogsFail vinylLegacyItem =
      { base := vinylLegacyItem, collector_category := some "vinyl"
        collector_data := none
        collector_warning := some "Vinyl not found on Discogs" } := by
  refine ⟨?_, ?_, ?_⟩
  · exact ((enrichment_failure_isolation_spec wineNameItem vinylLegacyItem
      { winery := some "Château Margaux", vintage := some 2015
        wine_name := some "Château Margaux Grand Vin", artist := none
        album := none, release_year := none }
      { artist := some "Pink Floyd", album := some "The Dark Side of the Moon"
        release_year := some 1973 }
      envVivinoFail envDiscogsFail envCollectorFail).2.2.1 rfl rfl).1 rfl
  · rcases hs : searchWine envVivinoOk
        (jsOrS (some "Château Margaux Grand Vin") (jsTemplate (some "Château Margaux")))
        (some 2015) with _ | w
    · exact absurd hs (by decide)
    · exact ⟨w, ((enrichment_failure_isolation_spec wineNameItem vinylLegacyItem
        { winery := some "Château Margaux", vintage := some 2015
          wine_name := some "Château Margaux Grand Vin", artist := none
          album := none, release_year := none }
        { artist := some "Pink Floyd", album := some "The Dark Side of the Moon"
          release_year := some 1973 }
        envVivinoOk envDiscogsFail envCollectorFail).2.2.1 rfl rfl).2 w hs⟩
  · exact ((enrichment_failure_isolation_spec wineNameItem vinylLegacyItem
      { winery := some "Château Margaux", vintage := some 2015
        wine_name := some "Château Margaux Grand Vin", artist := none
        album := none, release_year := none }
      { artist := some "Pink Floyd", album := some "The Dark Side of the Moon"
        release_year := some 1973 }
      envVivinoFail envDiscogsFail envCollectorFail).2.2.2 rfl).1 rfl

/-- C2 (code bug): the vinyl strategy guards on the legacy `vinyl_details`
field, so the spec's own scenario item — artist and album present in
`collector_details`, as the model schema emits — is rejected as having
insufficient details for every provider environment, even one whose search
would match; the lookup is never consulted. -/
theorem enrichVinylItem_ignores_collector_details_bug :
    (∀ env : DiscogsEnv,
      enrichVinylItem env pinkFloydItem =
        { base := pinkFloydItem, collector_category := some "vinyl"
          collector_data := none
          collector_warning := some "Insufficient vinyl details for enrichment" }) ∧
    pinkFloydItem.collector_details.bind (fun cd => cd.artist) =
      some "Pink Floyd" ∧
    pinkFloydItem.collector_details.bind (fun cd => cd.album) =
      some "The Dark Side of the Moon" ∧
    (searchVinyl envDiscogsOk (some "Pink Floyd")
      (some "The Dark Side of the Moon") (some 1973)).isSome = true := by
  exact ⟨fun env => rfl, rfl, rfl, by decide⟩

/-- C6 counterexample: for the winery-only wine item the strategy returns
the insufficient-details warning without using the provider, even in an
environment where the provider search would succeed — the `winery` fallback
in the query expression is unreachable. -/
theorem wine_winery_fallback_counterexample :
    enrichWineItem envVivinoOk wineryOnlyItem =
      { base := wineryOnlyItem, collector_category := some "wine"
        collector_data := none
        collector_warning := some "Insufficient wine details for enrichment" } ∧
    (searchWine envVivinoOk "Château Margaux" (some 2015)).isSome = true := by
  exact ⟨rfl, by decide⟩

/-- C6 amended: whenever `collector_details.wine_name` is falsy the wine
strategy returns the insufficient-details warning with null collector data
and performs no lookup, regardless of the winery field and of the provider
environment. -/
theorem enrichWineItem_requires_wine_name (env : VivinoEnv) (item : Item)
    (cd : CollectorDetails) (hcd : item.collector_details = some cd)
    (hwn : truthyS cd.wine_name = false) :
    enrichWineItem env item =
      { base := item, collector_category := some "wine"
        collector_data := none
        collector_warning := some "Insufficient wine details for enrichment" } := by
  simp [enrichWineItem, hcd, hwn]

/-- Witness for C6 (amended) at the winery-only item and a succeeding
provider environment. -/
theorem enrichWineItem_requires_wine_name_witness :
    enrichWineItem envVivinoFail wineryOnlyItem =
      { base := wineryOnlyItem, collector_category := some "wine"
        collector_data := none
        collector_warning := some "Insufficient wine details for enrichment" } := by
  exact enrichWineItem_requires_wine_name envVivinoFail wineryOnlyItem
    { winery := some "Château Margaux", vintage := some 2015
      wine_name := none, artist := none, album := none, release_year := none }
    rfl rfl

/-- Every branch of the wine strategy reports category "wine". -/
theorem enrichWineItem_category (env : VivinoEnv) (item : Item) :
    (enrichWineItem env item).collector_category = some "wine" := by
  unfold enrichWineItem
  rcases item.collector_details with _ | cd
  · rfl
  · by_cases h : truthyS cd.wine_name
    · rcases hs : searchWine env (jsOrS cd.wine_name (jsTemplate cd.winery))
        cd.vintage with _ | w <;> simp [h, hs]
    · simp [h]

/-- Every branch of the vinyl strategy reports category "vinyl". -/
theorem enrichVinylItem_category (env : DiscogsEnv) (item : Item) :
    (enrichVinylItem env item).collector_category = some "vinyl" := by
  unfold enrichVinylItem
  rcases item.vinyl_details with _ | vd
  · rfl
  · rcases hs : searchVinyl env vd.artist vd.album vd.release_year with _ | v <;>
      simp [hs]

/-- C4: any item whose `item_type` is not one of the two known categories
(including `'general'`, a missing field, or any malformed value) is returned
with null collector category, null collector data and no warning; and no
enriched item ever carries a warning while its collector category is null. -/
theorem routing_unknown_category_spec (env : CollectorEnv) (item : Item) :
    ((item.item_type ≠ some "wine" ∧ item.item_type ≠ some "vinyl") →
      processCollectorItem env item =
        { base := item, collector_category := none, collector_data := none
          collector_warning := none }) ∧
    ((processCollectorItem env item).collector_warning ≠ none →
      (processCollectorItem env item).collector_category ≠ none) := by
  constructor
  · rintro ⟨h1, h2⟩
    simp [processCollectorItem, h1, h2]
  · intro hw
    by_cases h1 : item.item_type = some "wine"
    · have : processCollectorItem env item = enrichWineItem env.vivino item := by
        simp [processCollectorItem, h1]
      rw [this, enrichWineItem_category]
      simp
    · by_cases h2 : item.item_type = some "vinyl"
      · have : processCollectorItem env item = enrichVinylItem env.discogs item := by
          simp [processCollectorItem, h1, h2]
        rw [this, enrichVinylItem_category]
        simp
      · have : processCollectorItem env item =
            { base := item, collector_category := none, collector_data := none
              collector_warning := none } := by
          simp [processCollectorItem, h1, h2]
        rw [this] at hw
        exact absurd rfl hw

/-- Witness for C4 at the `'general'` mug item and the failing provider
environment. -/
theorem routing_unknown_category_spec_witness :
    processCollectorItem envCollectorFail generalItem =
      { base := generalItem, collector_category := none, collector_data := none
        collector_warning := none } := by
  exact (routing_unknown_category_spec envCollectorFail generalItem).1
    ⟨by decide, by decide⟩

/-- The per-category counts are a partition: wine, vinyl and the complement
sum to the length, and the collector count is the wine+vinyl sum. -/
theorem countP_category_partition (l : List EnrichedItem) :
    l.countP (fun it => it.collector_category == some "wine") +
      l.countP (fun it => it.collector_category == some "vinyl") +
      l.countP (fun it =>
        !(it.collector_category == some "wine" ||
          it.collector_category == some "vinyl")) = l.length ∧
    l.countP (fun it =>
        it.collector_category == some "wine" ||
          it.collector_category == some "vinyl") =
      l.countP (fun it => it.collector_category == some "wine") +
        l.countP (fun it => it.collector_category == some "vinyl") := by
  induction l with
  | nil => simp
  | cons a t ih =>
    obtain ⟨ih1, ih2⟩ := ih
    by_cases hw : a.collector_category = some "wine"
    · have h1 : (a.collector_category == some "wine") = true := by simp [hw]
      have h2 : (a.collector_category == some "vinyl") = false := by simp [hw]
      simp only [List.countP_cons, List.length_cons, h1, h2]
      simp only [Bool.true_or, Bool.or_false, Bool.not_true, if_true, if_false]
      simp at ih1 ih2 ⊢
      omega
    · by_cases hv : a.collector_category = some "vinyl"
      · have h1 : (a.collector_category == some "wine") = false := by
          simpa [beq_eq_false_iff_ne] using hw
        have h2 : (a.collector_category == some "vinyl") = true := by simp [hv]
        simp only [List.countP_cons, List.length_cons, h1, h2]
        simp only [Bool.false_or, Bool.or_true, Bool.not_true, if_true, if_false]
        simp at ih1 ih2 ⊢
        omega
      · have h1 : (a.collector_category == some "wine") = false := by
          simpa [beq_eq_false_iff_ne] using hw
        have h2 : (a.collector_category == some "vinyl") = false := by
          simpa [beq_eq_false_iff_ne] using hv
        simp only [List.countP_cons, List.length_cons, h1, h2]
        simp only [Bool.or_self, Bool.or_false, Bool.not_false, if_true, if_false]
        simp at ih1 ih2 ⊢
        omega

/-- C10: `getCollectorStats` reports the array length as `total_items`; the
per-category counts partition it (`wine + vinyl + general = total`,
`collector = wine + vinyl`); `enrichment_failures` counts the items carrying
a collector warning and is absent exactly for the empty input. -/
theorem getCollectorStats_partition_spec (items : List EnrichedItem) :
    (getCollectorStats items).total_items = items.length ∧
    (getCollectorStats items).wine_items + (getCollectorStats items).vinyl_items +
      (getCollectorStats items).general_items =
        (getCollectorStats items).total_items ∧
    (getCollectorStats items).collector_items =
      (getCollectorStats items).wine_items +
        (getCollectorStats items).vinyl_items ∧
    (items = [] → (getCollectorStats items).enrichment_failures = none) ∧
    (items ≠ [] →
      (getCollectorStats items).enrichment_failures =
        some (items.countP fun it => truthyS it.collector_warning)) := by
  rcases items with _ | ⟨a, t⟩
  · exact ⟨rfl, rfl, rfl, fun _ => rfl, fun h => absurd rfl h⟩
  · have hne : ((a :: t : List EnrichedItem).isEmpty) = false := rfl
    obtain ⟨h1, h2⟩ := countP_category_partition (a :: t)
    refine ⟨rfl, ?_, ?_, by simp, fun _ => rfl⟩
    · simpa [getCollectorStats, hne] using h1
    · simpa [getCollectorStats, hne] using h2

/-- Witness for C10 at a one-element enriched list and the empty list. -/
theorem getCollectorStats_partition_spec_witness :
    (getCollectorStats [EnrichedItem.mk generalItem none none none]).total_items = 1 ∧
    (getCollectorStats [EnrichedItem.mk generalItem none none none]).enrichment_failures =
      some 0 ∧
    (getCollectorStats ([] : List EnrichedItem)).enrichment_failures = none := by
  refine ⟨?_, ?_, ?_⟩
  · exact (getCollectorStats_partition_spec _).1
  · exact (getCollectorStats_partition_spec
      [EnrichedItem.mk generalItem none none none]).2.2.2.2 (by simp)
  · exact (getCollectorStats_partition_spec []).2.2.2.1 rfl

/-- After folding the per-index writes, a slot holds its own task's value
when its index was completed, and the initial content otherwise. -/
theorem foldl_update_slot (values : List EnrichedItem) (l : List Nat)
    (g0 : Nat → EnrichedItem) (i : Nat) :
    (l.foldl (fun g j => Function.update g j (values.getD j default)) g0) i =
      if i ∈ l then values.getD i default else g0 i := by
  induction l generalizing g0 with
  | nil => simp
  | cons a t ih =>
    simp only [List.foldl_cons, ih, List.mem_cons]
    by_cases hm : i ∈ t
    · simp [hm]
    · by_cases ha : i = a
      · subst ha
        simp [hm, Function.update_apply]
      · simp [hm, ha, Function.update_apply]

/-- The `Promise.all` fan-in is index-aligned: for any completion order that
settles every task exactly once, the joined array is the task values in task
order. -/
theorem promiseAllJoin_eq (values : List EnrichedItem) (completion : List Nat)
    (hperm : completion.Perm (List.range values.length)) :
    promiseAllJoin values completion = values := by
  unfold promiseAllJoin
  apply List.ext_getElem (by simp)
  intro i h1 h2
  have hr : i < (List.range values.length).length := by simpa using h2
  rw [List.getElem_map, List.getElem_range, foldl_update_slot]
  have hmem : i ∈ completion := by
    rw [hperm.mem_iff]
    simpa using h2
  rw [if_pos hmem, List.getD_eq_getElem values default h2]

/-- C3: `processCollectorItems` returns a sequence of the input's length in
which the i-th output is exactly the enrichment of the i-th input item, for
every input, every assignment of per-item provider outcomes, and every
completion order of the concurrent lookups. -/
theorem processCollectorItems_order_spec (env : Nat → CollectorEnv)
    (completion : List Nat) (items : List Item)
    (hperm : completion.Perm (List.range items.length)) :
    (processCollectorItems env completion items).length = items.length ∧
    ∀ i : Nat, i < items.length →
      (processCollectorItems env completion items).getD i default =
        processCollectorItem (env i) (items.getD i default) := by
  rcases hitems : items with _ | ⟨a, t⟩
  · exact ⟨rfl, fun i hi => absurd hi (by simp)⟩
  · have hne : ((a :: t : List Item).isEmpty) = false := rfl
    have hlen : ((a :: t : List Item).enum.map
        (fun p => processCollectorItem (env p.1) p.2)).length =
        (a :: t : List Item).length := by simp
    have hjoin :
        processCollectorItems env completion (a :: t) =
          (a :: t : List Item).enum.map
            (fun p => processCollectorItem (env p.1) p.2) := by
      rw [processCollectorItems, if_neg (by simp)]
      exact promiseAllJoin_eq _ _ (by rw [hlen, ← hitems]; exact hperm)
    constructor
    · rw [hjoin, hlen]
    · intro i hi
      rw [hjoin]
      have hi' : i < ((a :: t : List Item).enum.map
          (fun p => processCollectorItem (env p.1) p.2)).length := by
        rw [hlen]; exact hi
      rw [List.getD_eq_getElem _ default hi', List.getElem_map]
      have he := List.getElem_enum (a :: t : List Item) i
        (h := by simpa using hi)
      rw [he, List.getD_eq_getElem _ default hi]

/-- Witness for C3: two items joined in reversed completion order come back
index-aligned, the first output being the first item's own enrichment. -/
theorem processCollectorItems_order_spec_witness :
    ([1, 0] : List Nat).Perm
      (List.range ([wineNameItem, generalItem] : List Item).length) ∧
    (processCollectorItems (fun _ => envCollectorFail) [1, 0]
      [wineNameItem, generalItem]).length = 2 ∧
    (processCollectorItems (fun _ => envCollectorFail) [1, 0]
      [wineNameItem, generalItem]).getD 0 default =
      processCollectorItem envCollectorFail wineNameItem := by
  refine ⟨by decide, ?_, ?_⟩
  · exact (processCollectorItems_order_spec (fun _ => envCollectorFail) [1, 0]
      [wineNameItem, generalItem] (by decide)).1
  · exact (processCollectorItems_order_spec (fun _ => envCollectorFail) [1, 0]
      [wineNameItem, generalItem] (by decide)).2 0 (by decide)
